import Mathlib

/-!
Verification of the `bqschema-gen-go` code generator (`main.go`).

The program introspects the tables of a BigQuery dataset and emits Go
struct declarations mirroring each table's schema.  The shallow embedding
below models the pure core of `main.go`:

* `bigqueryFieldTypeToGoType` — the field-type mapper (main.go:294-335);
* `capitalizeInitial`         — first-character capitalization (main.go:275-280);
* `generateTableSchemaCode`   — per-table struct text generation (main.go:192-223);
* `generateImportPackagesCode`— the import-block aggregator (main.go:166-190);
* `Generate`                  — document assembly over all tables (main.go:116-164);
* `getOptOrEnvOrDefault`      — opt/env/default configuration lookup (main.go:254-273).

Modelling conventions:

* Go strings are Lean `String`s (lists of characters).  The source only ever
  capitalizes the first byte via `strings.ToUpper(s[:1])`; for ASCII this
  coincides with `Char.toUpper` on the first character, and both leave
  non-ASCII initial data unchanged.
* A Go `(T, error)` pair becomes `T × Option String` (the error message), and
  an external call that may fail becomes `Except String T`.
* `bigquery.FieldType` is a string type; the library constants referenced by
  the switch are bound to their actual string values below.
* External collaborators (table enumeration, per-table metadata fetch, the
  `format.Source` formatter and the `imports.Process` resolver) are inputs:
  the enumeration result is an `Except`, each table carries its metadata
  fetch result, and the two post-processors are function parameters.
* Go's map iteration order is unspecified; the deduplication map of
  `generateImportPackagesCode` is modelled by `dedupFirst`, which fixes
  first-occurrence order as one deterministic representative.
-/

/-- Constant of package `cloud.google.com/go/bigquery`: `bigquery.StringFieldType`. -/
def StringFieldType : String := "STRING"

/-- Constant of package `cloud.google.com/go/bigquery`: `bigquery.BytesFieldType`. -/
def BytesFieldType : String := "BYTES"

/-- Constant of package `cloud.google.com/go/bigquery`: `bigquery.IntegerFieldType`. -/
def IntegerFieldType : String := "INTEGER"

/-- Constant of package `cloud.google.com/go/bigquery`: `bigquery.FloatFieldType`. -/
def FloatFieldType : String := "FLOAT"

/-- Constant of package `cloud.google.com/go/bigquery`: `bigquery.BooleanFieldType`. -/
def BooleanFieldType : String := "BOOLEAN"

/-- Constant of package `cloud.google.com/go/bigquery`: `bigquery.TimestampFieldType`. -/
def TimestampFieldType : String := "TIMESTAMP"

/-- Constant of package `cloud.google.com/go/bigquery`: `bigquery.RecordFieldType`. -/
def RecordFieldType : String := "RECORD"

/-- Constant of package `cloud.google.com/go/bigquery`: `bigquery.DateFieldType`. -/
def DateFieldType : String := "DATE"

/-- Constant of package `cloud.google.com/go/bigquery`: `bigquery.TimeFieldType`. -/
def TimeFieldType : String := "TIME"

/-- Constant of package `cloud.google.com/go/bigquery`: `bigquery.DateTimeFieldType`. -/
def DateTimeFieldType : String := "DATETIME"

/-- Constant of package `cloud.google.com/go/bigquery`: `bigquery.NumericFieldType`. -/
def NumericFieldType : String := "NUMERIC"

/-- Constant of package `cloud.google.com/go/bigquery`: `bigquery.GeographyFieldType`. -/
def GeographyFieldType : String := "GEOGRAPHY"

/-- One column of a table schema: `bigquery.FieldSchema` (the two fields the
generator reads: `Name` and `Type`). -/
structure FieldSchema where
  name : String
  fieldType : String
deriving DecidableEq

/-- The table metadata the generator reads from `table.Metadata(ctx)`:
`FullID`, `Description` and the ordered column `Schema`. -/
structure TableMetadata where
  fullID : String
  description : String
  schema : List FieldSchema
deriving DecidableEq

/-- A `*bigquery.Table` together with the outcome of its (external) metadata
fetch: `metadata` is the result of `table.Metadata(ctx)`. -/
structure Table where
  tableID : String
  metadata : Except String TableMetadata

/-- Abstraction of Go's `fmt.Sprintf("%#v", table)` dump used in the
empty-table-identifier error (main.go:194): a rendering of the offending
input table. -/
def tableDump (t : Table) : String :=
  "&bigquery.Table\x7bTableID:\"" ++ t.tableID ++ "\"\x7d"

/-- `bigqueryFieldTypeToGoType` (main.go:294-335).  The Go `switch` is a
sequential comparison against the library constants; the hard-coded result
strings are the values the `reflect` expressions in the source evaluate to:
`typeOfByteSlice.String() = "[]uint8"`, `typeOfDate.String() = "civil.Date"`
with `PkgPath() = "cloud.google.com/go/civil"`, `typeOfGoTime.String() =
"time.Time"` with `PkgPath() = "time"`, `typeOfRat.String() = "*big.Rat"`
with `reflect.TypeOf(big.Rat{}).PkgPath() = "math/big"`, and
`reflect.Int64.String() = "int64"` etc.  Returns `(goType, pkg, err)`. -/
def bigqueryFieldTypeToGoType (bigqueryFieldType : String) :
    String × String × Option String :=
  if bigqueryFieldType = BytesFieldType then ("[]uint8", "", none)
  else if bigqueryFieldType = DateFieldType then
    ("civil.Date", "cloud.google.com/go/civil", none)
  else if bigqueryFieldType = TimeFieldType then
    ("civil.Time", "cloud.google.com/go/civil", none)
  else if bigqueryFieldType = DateTimeFieldType then
    ("civil.DateTime", "cloud.google.com/go/civil", none)
  else if bigqueryFieldType = TimestampFieldType then ("time.Time", "time", none)
  else if bigqueryFieldType = NumericFieldType then ("*big.Rat", "math/big", none)
  else if bigqueryFieldType = IntegerFieldType then ("int64", "", none)
  else if bigqueryFieldType = RecordFieldType then
    ("", "", some ("bigquery.FieldType not supported. bigquery.FieldType="
      ++ bigqueryFieldType))
  else if bigqueryFieldType = StringFieldType ∨ bigqueryFieldType = GeographyFieldType then
    ("string", "", none)
  else if bigqueryFieldType = BooleanFieldType then ("bool", "", none)
  else if bigqueryFieldType = FloatFieldType then ("float64", "", none)
  else
    ("", "", some ("bigquery.FieldType not supported. bigquery.FieldType="
      ++ bigqueryFieldType))

/-- `capitalizeInitial` (main.go:275-280): empty string unchanged, otherwise
the first character is upper-cased (`strings.ToUpper(s[:1]) + s[1:]`). -/
def capitalizeInitial (s : String) : String :=
  match s with
  | ⟨[]⟩ => ""
  | ⟨c :: cs⟩ => ⟨c.toUpper :: cs⟩

/-- The field-generation loop of `generateTableSchemaCode` (main.go:210-220),
with the accumulated struct text and import-package list passed explicitly.
On the first mapper error it returns `("", [], err)` exactly as the Go
`return "", nil, fmt.Errorf("bigqueryFieldTypeToGoType: %w", err)` does,
discarding everything accumulated so far; on success the closing brace line
is appended. -/
def generateFieldsCode :
    List FieldSchema → String → List String → String × List String × Option String
  | [], generatedCode, importPackages => (generatedCode ++ "\x7d\n", importPackages, none)
  | schema :: rest, generatedCode, importPackages =>
    match bigqueryFieldTypeToGoType schema.fieldType with
    | (goTypeStr, pkg, none) =>
      generateFieldsCode rest
        (generatedCode ++ "\t" ++ capitalizeInitial schema.name ++ " " ++ goTypeStr
          ++ " `bigquery:\"" ++ schema.name ++ "\"`\n")
        (if pkg = "" then importPackages else importPackages ++ [pkg])
    | (_, _, some e) => ("", [], some ("bigqueryFieldTypeToGoType: " ++ e))

/-- `generateTableSchemaCode` (main.go:192-223): rejects an empty table
identifier, propagates a metadata-fetch error wrapped with `table.Metadata:`,
and otherwise emits the two doc-comment lines, the struct opening, one field
line per column in order, and the close. -/
def generateTableSchemaCode (table : Table) : String × List String × Option String :=
  if table.tableID.length = 0 then
    ("", [], some ("*bigquery.Table.TableID is empty. *bigquery.Table struct dump: "
      ++ tableDump table))
  else
    let structName := capitalizeInitial table.tableID
    match table.metadata with
    | Except.error e => ("", [], some ("table.Metadata: " ++ e))
    | Except.ok md =>
      generateFieldsCode md.schema
        ("// " ++ structName ++ " is BigQuery Table `" ++ md.fullID
          ++ "` schema struct.\n"
          ++ "// Description: " ++ md.description ++ "\n"
          ++ "type " ++ structName ++ " struct \x7b\n")
        []

/-- Deduplication of the import-package list.  The source inserts every
package into a Go map and iterates it; map iteration order is unspecified,
so the model fixes first-occurrence order as the deterministic
representative of the deduplicated set. -/
def dedupFirst : List String → List String
  | [] => []
  | pkg :: rest => pkg :: (dedupFirst rest).filter (fun q => q != pkg)

/-- Concatenation of a list of strings (the text accumulated by the
rendering loops). -/
def strConcat : List String → String
  | [] => ""
  | s :: rest => s ++ strConcat rest

/-- `generateImportPackagesCode` (main.go:166-190): deduplicate, then render
by cardinality — zero packages give the empty string, one package a single
`import "..."` line plus a blank line, two or more a grouped
`import ( ... )` block plus a blank line. -/
def generateImportPackagesCode (importPackages : List String) : String :=
  match dedupFirst importPackages with
  | [] => ""
  | [pkg] => "import \"" ++ pkg ++ "\"\n" ++ "\n"
  | pkgs => "import (\n" ++ strConcat (pkgs.map (fun pkg => "\t\"" ++ pkg ++ "\"\n"))
      ++ ")\n\n"

/-- The fixed generated-file header of `Generate` (main.go:118-124). -/
def generatedCodeHead : String :=
  "// Code generated by go run github.com/djeeno/bqtableschema; DO NOT EDIT.\n\n"
    ++ "//go:generate go run github.com/djeeno/bqtableschema\n\n"
    ++ "package bqtableschema\n\n"

/-- The body of the per-table loop of `Generate` (main.go:133-144): a table
whose `generateTableSchemaCode` fails is logged and skipped (`continue`); a
successful table appends its struct text to the tail and its packages to the
accumulated import list. -/
def generateLoopStep (acc : String × List String) (table : Table) : String × List String :=
  match generateTableSchemaCode table with
  | (structCode, pkgs, none) =>
    (acc.1 ++ structCode, if pkgs.length > 0 then acc.2 ++ pkgs else acc.2)
  | (_, _, some _) => acc

/-- The per-table loop of `Generate` (main.go:131-144), folding
`generateLoopStep` over the enumerated tables with empty accumulators. -/
def generateLoop (tables : List Table) : String × List String :=
  tables.foldl generateLoopStep ("", [])

/-- `Generate` (main.go:116-164).  `getTables` is the result of the external
table enumeration (`getAllTables`), `formatSource` models `format.Source`
and `importsProcess` models `imports.Process`; each failure is wrapped with
the same context string the Go `fmt.Errorf` calls use. -/
def Generate (getTables : Except String (List Table))
    (formatSource : String → Except String String)
    (importsProcess : String → Except String String) : Except String String :=
  match getTables with
  | Except.error e => Except.error ("getAllTables: " ++ e)
  | Except.ok tables =>
    let tailAndPkgs := generateLoop tables
    let importCode := generateImportPackagesCode tailAndPkgs.2
    let code := generatedCodeHead ++ importCode ++ tailAndPkgs.1
    match formatSource code with
    | Except.error e => Except.error ("format.Source: " ++ e)
    | Except.ok genFmt =>
      match importsProcess genFmt with
      | Except.error e => Except.error ("imports.Process: " ++ e)
      | Except.ok genImports => Except.ok genImports

/-- `getOptOrEnvOrDefault` (main.go:254-273).  `env` models `os.Getenv`
(returning `""` for an unset variable); the result pairs the value with an
optional error message. -/
def getOptOrEnvOrDefault (env : String → String)
    (optKey optValue envKey defaultValue : String) : String × Option String :=
  if optKey = "" then ("", some "optKey is empty")
  else if optValue ≠ "" then (optValue, none)
  else
    let envValue := env envKey
    if envValue ≠ "" then (envValue, none)
    else if defaultValue ≠ "" then (defaultValue, none)
    else ("", some ("set option -" ++ optKey ++ ", or set environment variable " ++ envKey))

/-- The semantic types the mapper supports (every case of the switch that
does not return an error). -/
def supportedFieldTypes : List String :=
  [StringFieldType, BytesFieldType, IntegerFieldType, FloatFieldType, BooleanFieldType,
   TimestampFieldType, DateFieldType, TimeFieldType, DateTimeFieldType, NumericFieldType,
   GeographyFieldType]

/-- The text of one generated field line, as emitted for a column whose type
maps successfully (main.go:218). -/
def fieldLine (schema : FieldSchema) : String :=
  "\t" ++ capitalizeInitial schema.name ++ " "
    ++ (bigqueryFieldTypeToGoType schema.fieldType).1
    ++ " `bigquery:\"" ++ schema.name ++ "\"`\n"

/-- The import packages a successful run over a column list accumulates, in
column order, keeping only non-empty package references (main.go:215-217). -/
def collectImportPackages : List FieldSchema → List String
  | [] => []
  | schema :: rest =>
    (if (bigqueryFieldTypeToGoType schema.fieldType).2.1 = "" then []
     else [(bigqueryFieldTypeToGoType schema.fieldType).2.1])
      ++ collectImportPackages rest

/-- Example table with integer and float columns, used as a concrete input. -/
def ordersTable : Table :=
  ⟨"orders", Except.ok ⟨"p:d.orders", "", [⟨"id", "INTEGER"⟩, ⟨"total", "FLOAT"⟩]⟩⟩

/-- Example table with a timestamp column, used as a concrete input. -/
def eventsTable : Table :=
  ⟨"events", Except.ok ⟨"p:d.events", "", [⟨"ts", "TIMESTAMP"⟩]⟩⟩

/-- Example table with a record-type column, whose struct generation fails. -/
def badRecordTable : Table :=
  ⟨"bad", Except.ok ⟨"p:d.bad", "", [⟨"r", "RECORD"⟩]⟩⟩

theorem char_toNat_ofNat_valid (n : Nat) (h : n.isValidChar) : (Char.ofNat n).toNat = n := by
  rw [Char.ofNat, dif_pos h]
  rfl

theorem char_toUpper_toUpper (c : Char) : c.toUpper.toUpper = c.toUpper := by
  unfold Char.toUpper
  by_cases h : c.toNat ≥ 97 ∧ c.toNat ≤ 122
  · rw [if_pos h]
    have hv : (c.toNat - 32).isValidChar := by
      unfold Nat.isValidChar
      left
      omega
    rw [char_toNat_ofNat_valid _ hv]
    rw [if_neg (by omega)]
  · rw [if_neg h, if_neg h]

/-- C1: every supported semantic column type maps, without error, to exactly
the hard-coded pair of Go type name and import reference: string and
geography to `string` with no import, bytes to `[]uint8`, integer to
`int64`, float to `float64`, boolean to `bool`, timestamp to `time.Time`
importing `time`, date/time/datetime to the `civil` types importing the
civil package, and numeric to `*big.Rat` importing `math/big`. -/
theorem bigqueryFieldTypeToGoType_supported :
    bigqueryFieldTypeToGoType StringFieldType = ("string", "", none) ∧
    bigqueryFieldTypeToGoType GeographyFieldType = ("string", "", none) ∧
    bigqueryFieldTypeToGoType BytesFieldType = ("[]uint8", "", none) ∧
    bigqueryFieldTypeToGoType IntegerFieldType = ("int64", "", none) ∧
    bigqueryFieldTypeToGoType FloatFieldType = ("float64", "", none) ∧
    bigqueryFieldTypeToGoType BooleanFieldType = ("bool", "", none) ∧
    bigqueryFieldTypeToGoType TimestampFieldType = ("time.Time", "time", none) ∧
    bigqueryFieldTypeToGoType DateFieldType
      = ("civil.Date", "cloud.google.com/go/civil", none) ∧
    bigqueryFieldTypeToGoType TimeFieldType
      = ("civil.Time", "cloud.google.com/go/civil", none) ∧
    bigqueryFieldTypeToGoType DateTimeFieldType
      = ("civil.DateTime", "cloud.google.com/go/civil", none) ∧
    bigqueryFieldTypeToGoType NumericFieldType = ("*big.Rat", "math/big", none) :=
  ⟨rfl, rfl, rfl, rfl, rfl, rfl, rfl, rfl, rfl, rfl, rfl⟩

/-- C2: for every semantic type outside the supported enumeration (the
record type included), the mapper returns empty type-name and import
results together with an error message that carries the offending type
name. -/
theorem bigqueryFieldTypeToGoType_unsupported (ft : String)
    (h : ft ∉ supportedFieldTypes) :
    ∃ msg, bigqueryFieldTypeToGoType ft = ("", "", some msg) ∧ ∃ pre, msg = pre ++ ft := by
  simp only [supportedFieldTypes, List.mem_cons, List.not_mem_nil, or_false, not_or] at h
  obtain ⟨h1, h2, h3, h4, h5, h6, h7, h8, h9, h10, h11⟩ := h
  refine ⟨"bigquery.FieldType not supported. bigquery.FieldType=" ++ ft, ?_,
    "bigquery.FieldType not supported. bigquery.FieldType=", rfl⟩
  by_cases hr : ft = RecordFieldType
  · subst hr
    rfl
  · unfold bigqueryFieldTypeToGoType
    rw [if_neg h2, if_neg h7, if_neg h8, if_neg h9, if_neg h6, if_neg h10, if_neg h3,
      if_neg hr, if_neg (not_or.mpr ⟨h1, h11⟩), if_neg h5, if_neg h4]

theorem bigqueryFieldTypeToGoType_unsupported_witness :
    "RECORD" ∉ supportedFieldTypes ∧
      ∃ msg, bigqueryFieldTypeToGoType "RECORD" = ("", "", some msg) ∧
        ∃ pre, msg = pre ++ "RECORD" :=
  ⟨by decide, bigqueryFieldTypeToGoType_unsupported "RECORD" (by decide)⟩

/-- C8: the capitalize operation maps the empty string to the empty string,
upper-cases a single lowercase letter (subtracting 32 from its code point),
leaves a string whose first character is already an uppercase letter
unchanged, and is idempotent on every string. -/
theorem capitalizeInitial_spec :
    capitalizeInitial "" = "" ∧
    (∀ c : Char, 97 ≤ c.toNat → c.toNat ≤ 122 →
      capitalizeInitial ⟨[c]⟩ = ⟨[Char.ofNat (c.toNat - 32)]⟩) ∧
    (∀ (s : String) (c : Char) (cs : List Char),
      s.data = c :: cs → 65 ≤ c.toNat → c.toNat ≤ 90 → capitalizeInitial s = s) ∧
    (∀ s : String, capitalizeInitial (capitalizeInitial s) = capitalizeInitial s) := by
  refine ⟨rfl, ?_, ?_, ?_⟩
  · intro c h1 h2
    show String.mk [c.toUpper] = String.mk [Char.ofNat (c.toNat - 32)]
    unfold Char.toUpper
    rw [if_pos ⟨h1, h2⟩]
  · intro s c cs hs h1 h2
    cases s with
    | mk data =>
      simp only at hs
      subst hs
      show String.mk (c.toUpper :: cs) = String.mk (c :: cs)
      unfold Char.toUpper
      rw [if_neg (by omega)]
  · intro s
    cases s with
    | mk data =>
      cases data with
      | nil => rfl
      | cons c cs =>
        show String.mk (c.toUpper.toUpper :: cs) = String.mk (c.toUpper :: cs)
        rw [char_toUpper_toUpper]

theorem capitalizeInitial_spec_witness :
    capitalizeInitial ⟨['a']⟩ = ⟨[Char.ofNat (Char.toNat 'a' - 32)]⟩ ∧
      capitalizeInitial "Xyz" = "Xyz" :=
  ⟨capitalizeInitial_spec.2.1 'a' (by decide) (by decide),
   capitalizeInitial_spec.2.2.1 "Xyz" 'X' ['y', 'z'] rfl (by decide) (by decide)⟩

/-- C9: struct generation for a table whose identifier is the empty string
fails with the descriptive error carrying a dump of the offending table,
and returns empty struct text (and no import packages). -/
theorem generateTableSchemaCode_emptyTableID (table : Table)
    (h : table.tableID = "") :
    generateTableSchemaCode table =
      ("", [], some ("*bigquery.Table.TableID is empty. *bigquery.Table struct dump: "
        ++ tableDump table)) := by
  unfold generateTableSchemaCode
  rw [if_pos (by rw [h]; rfl)]

theorem generateTableSchemaCode_emptyTableID_witness :
    generateTableSchemaCode ⟨"", Except.ok ⟨"f", "d", []⟩⟩ =
      ("", [], some ("*bigquery.Table.TableID is empty. *bigquery.Table struct dump: "
        ++ tableDump ⟨"", Except.ok ⟨"f", "d", []⟩⟩)) :=
  generateTableSchemaCode_emptyTableID ⟨"", Except.ok ⟨"f", "d", []⟩⟩ rfl

/-- C10: configuration lookup precedence — an empty option key is an error;
otherwise a non-empty option value wins, else a non-empty environment value,
else a non-empty default value, and only when all three candidates are empty
does the lookup fail, returning the empty string and an error naming the
option and environment keys. -/
theorem getOptOrEnvOrDefault_spec (env : String → String)
    (optKey optValue envKey defaultValue : String) :
    (optKey = "" →
      getOptOrEnvOrDefault env optKey optValue envKey defaultValue
        = ("", some "optKey is empty")) ∧
    (optKey ≠ "" → optValue ≠ "" →
      getOptOrEnvOrDefault env optKey optValue envKey defaultValue = (optValue, none)) ∧
    (optKey ≠ "" → optValue = "" → env envKey ≠ "" →
      getOptOrEnvOrDefault env optKey optValue envKey defaultValue = (env envKey, none)) ∧
    (optKey ≠ "" → optValue = "" → env envKey = "" → defaultValue ≠ "" →
      getOptOrEnvOrDefault env optKey optValue envKey defaultValue = (defaultValue, none)) ∧
    (optKey ≠ "" → optValue = "" → env envKey = "" → defaultValue = "" →
      getOptOrEnvOrDefault env optKey optValue envKey defaultValue
        = ("", some ("set option -" ++ optKey ++ ", or set environment variable "
            ++ envKey))) := by
  refine ⟨?_, ?_, ?_, ?_, ?_⟩ <;> intros <;> simp_all [getOptOrEnvOrDefault]

theorem getOptOrEnvOrDefault_spec_witness :
    getOptOrEnvOrDefault (fun _ => "") "" "" "" "" = ("", some "optKey is empty") ∧
    getOptOrEnvOrDefault (fun _ => "") "k" "v" "K" "d" = ("v", none) ∧
    getOptOrEnvOrDefault (fun _ => "e") "k" "" "K" "d" = ("e", none) ∧
    getOptOrEnvOrDefault (fun _ => "") "k" "" "K" "d" = ("d", none) ∧
    getOptOrEnvOrDefault (fun _ => "") "k" "" "K" ""
      = ("", some ("set option -" ++ "k" ++ ", or set environment variable " ++ "K")) :=
  ⟨(getOptOrEnvOrDefault_spec (fun _ => "") "" "" "" "").1 rfl,
   (getOptOrEnvOrDefault_spec (fun _ => "") "k" "v" "K" "d").2.1 (by decide) (by decide),
   (getOptOrEnvOrDefault_spec (fun _ => "e") "k" "" "K" "d").2.2.1 (by decide) rfl (by decide),
   (getOptOrEnvOrDefault_spec (fun _ => "") "k" "" "K" "d").2.2.2.1
     (by decide) rfl rfl (by decide),
   (getOptOrEnvOrDefault_spec (fun _ => "") "k" "" "K" "").2.2.2.2 (by decide) rfl rfl rfl⟩

theorem mem_dedupFirst (x : String) (l : List String) : x ∈ dedupFirst l ↔ x ∈ l := by
  induction l with
  | nil => simp [dedupFirst]
  | cons p rest ih =>
    simp only [dedupFirst, List.mem_cons, List.mem_filter]
    constructor
    · rintro (h | ⟨h, -⟩)
      · exact Or.inl h
      · exact Or.inr (ih.mp h)
    · rintro (h | h)
      · exact Or.inl h
      · by_cases hx : x = p
        · exact Or.inl hx
        · exact Or.inr ⟨ih.mpr h, by simp [bne_iff_ne, hx]⟩

theorem nodup_dedupFirst (l : List String) : (dedupFirst l).Nodup := by
  induction l with
  | nil => simp [dedupFirst]
  | cons p rest ih =>
    rw [dedupFirst, List.nodup_cons]
    refine ⟨?_, ih.filter _⟩
    intro hmem
    have h := (List.mem_filter.mp hmem).2
    simp at h

theorem dedupFirst_allEq (l : List String) (p : String)
    (hmem : p ∈ l) (hall : ∀ q ∈ l, q = p) : dedupFirst l = [p] := by
  cases l with
  | nil => cases hmem
  | cons a rest =>
    have ha : a = p := hall a (List.mem_cons_self a rest)
    have hfilt : (dedupFirst rest).filter (fun q => q != a) = [] := by
      rw [List.filter_eq_nil_iff]
      intro q hq
      have hq' : q = p := hall q (List.mem_cons_of_mem _ ((mem_dedupFirst q rest).mp hq))
      simp [hq', ha]
    rw [dedupFirst, hfilt, ha]

theorem two_le_length_dedupFirst (l : List String) (p q : String)
    (hp : p ∈ l) (hq : q ∈ l) (hne : p ≠ q) : 2 ≤ (dedupFirst l).length := by
  have hp' := (mem_dedupFirst p l).mpr hp
  have hq' := (mem_dedupFirst q l).mpr hq
  cases hd : dedupFirst l with
  | nil =>
    rw [hd] at hp'
    cases hp'
  | cons x xs =>
    cases xs with
    | nil =>
      rw [hd] at hp' hq'
      simp at hp' hq'
      exact absurd (hp'.trans hq'.symm) hne
    | cons y ys => simp

/-- C4: the import aggregator's output is determined by the cardinality of
the deduplicated reference set — an empty set yields the empty string, a
singleton yields one import statement followed by a blank line, and two or
more distinct references yield a grouped block, one reference per line,
followed by a blank line, each distinct reference appearing exactly once
regardless of input duplication. -/
theorem generateImportPackagesCode_spec (l : List String) :
    (l = [] → generateImportPackagesCode l = "") ∧
    (∀ p, p ∈ l → (∀ q ∈ l, q = p) →
      generateImportPackagesCode l = "import \"" ++ p ++ "\"\n" ++ "\n") ∧
    ((∃ p q, p ∈ l ∧ q ∈ l ∧ p ≠ q) →
      ∃ pkgs : List String, pkgs.Nodup ∧ (∀ r, r ∈ pkgs ↔ r ∈ l) ∧ 2 ≤ pkgs.length ∧
        generateImportPackagesCode l
          = "import (\n" ++ strConcat (pkgs.map (fun pkg => "\t\"" ++ pkg ++ "\"\n"))
            ++ ")\n\n") := by
  refine ⟨?_, ?_, ?_⟩
  · rintro rfl
    rfl
  · intro p hp hall
    have hd := dedupFirst_allEq l p hp hall
    unfold generateImportPackagesCode
    rw [hd]
  · rintro ⟨p, q, hp, hq, hne⟩
    refine ⟨dedupFirst l, nodup_dedupFirst l, fun r => mem_dedupFirst r l,
      two_le_length_dedupFirst l p q hp hq hne, ?_⟩
    have h2 := two_le_length_dedupFirst l p q hp hq hne
    unfold generateImportPackagesCode
    cases hd : dedupFirst l with
    | nil =>
      rw [hd] at h2
      simp at h2
    | cons x xs =>
      cases xs with
      | nil =>
        rw [hd] at h2
        simp at h2
      | cons y ys => rfl

theorem generateImportPackagesCode_spec_witness :
    generateImportPackagesCode ([] : List String) = "" ∧
    generateImportPackagesCode ["time", "time"] = "import \"" ++ "time" ++ "\"\n" ++ "\n" ∧
    (∃ pkgs : List String, pkgs.Nodup ∧ (∀ r, r ∈ pkgs ↔ r ∈ ["time", "math/big"]) ∧ 2 ≤ pkgs.length ∧
      generateImportPackagesCode ["time", "math/big"]
        = "import (\n" ++ strConcat (pkgs.map (fun pkg => "\t\"" ++ pkg ++ "\"\n"))
          ++ ")\n\n") :=
  ⟨(generateImportPackagesCode_spec []).1 rfl,
   (generateImportPackagesCode_spec ["time", "time"]).2.1 "time" (by decide) (by decide),
   (generateImportPackagesCode_spec ["time", "math/big"]).2.2
     ⟨"time", "math/big", by decide, by decide, by decide⟩⟩

theorem string_eq_empty_of_length_eq_zero {s : String} (h : s.length = 0) : s = "" := by
  cases s with
  | mk data =>
    cases data with
    | nil => rfl
    | cons c cs => simp [String.length] at h

theorem generateFieldsCode_ok (l : List FieldSchema) :
    ∀ (acc : String) (pkgs : List String),
      (∀ s ∈ l, (bigqueryFieldTypeToGoType s.fieldType).2.2 = none) →
      generateFieldsCode l acc pkgs
        = (acc ++ strConcat (l.map fieldLine) ++ "\x7d\n",
           pkgs ++ collectImportPackages l, none) := by
  induction l with
  | nil =>
    intro acc pkgs _
    simp [generateFieldsCode, collectImportPackages, strConcat]
  | cons s rest ih =>
    intro acc pkgs h
    have hs := h s (List.mem_cons_self s rest)
    have hrest : ∀ x ∈ rest, (bigqueryFieldTypeToGoType x.fieldType).2.2 = none :=
      fun x hx => h x (List.mem_cons_of_mem s hx)
    rcases hmap : bigqueryFieldTypeToGoType s.fieldType with ⟨g, p, o⟩
    rw [hmap] at hs
    have ho : o = none := hs
    subst ho
    by_cases hp : p = "" <;>
      simp [generateFieldsCode, hmap, ih _ _ hrest, fieldLine, strConcat,
        collectImportPackages, hp, String.append_assoc, List.append_assoc]

theorem generateFieldsCode_err (bad : FieldSchema) (rest : List FieldSchema) (e : String)
    (hbad : (bigqueryFieldTypeToGoType bad.fieldType).2.2 = some e) :
    ∀ (good : List FieldSchema) (acc : String) (pkgs : List String),
      (∀ s ∈ good, (bigqueryFieldTypeToGoType s.fieldType).2.2 = none) →
      generateFieldsCode (good ++ bad :: rest) acc pkgs
        = ("", [], some ("bigqueryFieldTypeToGoType: " ++ e)) := by
  intro good
  induction good with
  | nil =>
    intro acc pkgs _
    rcases hmap : bigqueryFieldTypeToGoType bad.fieldType with ⟨g, p, o⟩
    rw [hmap] at hbad
    have ho : o = some e := hbad
    subst ho
    simp [generateFieldsCode, hmap]
  | cons s gs ih =>
    intro acc pkgs hgood
    have hs := hgood s (List.mem_cons_self s gs)
    rcases hmap : bigqueryFieldTypeToGoType s.fieldType with ⟨g, p, o⟩
    rw [hmap] at hs
    have ho : o = none := hs
    subst ho
    simp only [List.cons_append, generateFieldsCode, hmap]
    exact ih _ _ (fun x hx => hgood x (List.mem_cons_of_mem s hx))

/-- C3: for a table with a non-empty identifier whose columns all map
successfully, the generated struct text is, in order, the doc-comment line
naming the capitalized struct and the table's fully qualified id, the
description doc-comment line (emitted even for an empty description), the
struct opening, one field line per column in original column order — each
carrying the capitalized column name, the mapped type name and a tag with
the original column name — and the struct close. -/
theorem generateTableSchemaCode_spec (table : Table) (md : TableMetadata)
    (hid : table.tableID ≠ "")
    (hmd : table.metadata = Except.ok md)
    (hok : ∀ s ∈ md.schema, (bigqueryFieldTypeToGoType s.fieldType).2.2 = none) :
    generateTableSchemaCode table
      = (("// " ++ capitalizeInitial table.tableID ++ " is BigQuery Table `" ++ md.fullID
           ++ "` schema struct.\n"
           ++ "// Description: " ++ md.description ++ "\n"
           ++ "type " ++ capitalizeInitial table.tableID ++ " struct \x7b\n")
          ++ strConcat (md.schema.map fieldLine) ++ "\x7d\n",
         collectImportPackages md.schema, none) := by
  have hlen : ¬ table.tableID.length = 0 :=
    fun h0 => hid (string_eq_empty_of_length_eq_zero h0)
  unfold generateTableSchemaCode
  rw [if_neg hlen, hmd]
  simpa using generateFieldsCode_ok md.schema
    ("// " ++ capitalizeInitial table.tableID ++ " is BigQuery Table `" ++ md.fullID
      ++ "` schema struct.\n"
      ++ "// Description: " ++ md.description ++ "\n"
      ++ "type " ++ capitalizeInitial table.tableID ++ " struct \x7b\n") [] hok

theorem generateTableSchemaCode_spec_witness :
    generateTableSchemaCode ordersTable
      = (("// " ++ capitalizeInitial "orders" ++ " is BigQuery Table `" ++ "p:d.orders"
           ++ "` schema struct.\n"
           ++ "// Description: " ++ "" ++ "\n"
           ++ "type " ++ capitalizeInitial "orders" ++ " struct \x7b\n")
          ++ strConcat ([FieldSchema.mk "id" "INTEGER",
              FieldSchema.mk "total" "FLOAT"].map fieldLine) ++ "\x7d\n",
         collectImportPackages [FieldSchema.mk "id" "INTEGER",
           FieldSchema.mk "total" "FLOAT"], none) :=
  generateTableSchemaCode_spec ordersTable
    ⟨"p:d.orders", "", [⟨"id", "INTEGER"⟩, ⟨"total", "FLOAT"⟩]⟩
    (by decide) rfl (by decide)

/-- C7: if the field-type mapper fails for a column of a table, struct
generation for the whole table fails with that error wrapped with the
`bigqueryFieldTypeToGoType:` context, and both the returned struct text and
the returned import list are empty — nothing accumulated from earlier
columns survives. -/
theorem generateTableSchemaCode_mapperError (table : Table) (md : TableMetadata)
    (good : List FieldSchema) (bad : FieldSchema) (rest : List FieldSchema) (e : String)
    (hid : table.tableID ≠ "")
    (hmd : table.metadata = Except.ok md)
    (hschema : md.schema = good ++ bad :: rest)
    (hgood : ∀ s ∈ good, (bigqueryFieldTypeToGoType s.fieldType).2.2 = none)
    (hbad : (bigqueryFieldTypeToGoType bad.fieldType).2.2 = some e) :
    generateTableSchemaCode table
      = ("", [], some ("bigqueryFieldTypeToGoType: " ++ e)) := by
  have hlen : ¬ table.tableID.length = 0 :=
    fun h0 => hid (string_eq_empty_of_length_eq_zero h0)
  unfold generateTableSchemaCode
  rw [if_neg hlen, hmd]
  show generateFieldsCode md.schema _ [] = _
  rw [hschema]
  exact generateFieldsCode_err bad rest e hbad good _ [] hgood

theorem generateTableSchemaCode_mapperError_witness :
    generateTableSchemaCode
        ⟨"mix", Except.ok ⟨"p:d.mix", "d",
          [⟨"id", "INTEGER"⟩, ⟨"r", "RECORD"⟩, ⟨"ts", "TIMESTAMP"⟩]⟩⟩
      = ("", [], some ("bigqueryFieldTypeToGoType: "
          ++ "bigquery.FieldType not supported. bigquery.FieldType=RECORD")) :=
  generateTableSchemaCode_mapperError
    ⟨"mix", Except.ok ⟨"p:d.mix", "d",
      [⟨"id", "INTEGER"⟩, ⟨"r", "RECORD"⟩, ⟨"ts", "TIMESTAMP"⟩]⟩⟩
    ⟨"p:d.mix", "d", [⟨"id", "INTEGER"⟩, ⟨"r", "RECORD"⟩, ⟨"ts", "TIMESTAMP"⟩]⟩
    [⟨"id", "INTEGER"⟩] ⟨"r", "RECORD"⟩ [⟨"ts", "TIMESTAMP"⟩]
    "bigquery.FieldType not supported. bigquery.FieldType=RECORD"
    (by decide) rfl rfl (by decide) rfl

theorem generateLoopStep_skip (acc : String × List String) (bad : Table) (e : String)
    (hbad : (generateTableSchemaCode bad).2.2 = some e) :
    generateLoopStep acc bad = acc := by
  unfold generateLoopStep
  rcases hg : generateTableSchemaCode bad with ⟨s, p, o⟩
  rw [hg] at hbad
  have ho : o = some e := hbad
  subst ho
  rfl

/-- C5: a per-table struct-generation failure causes only that table to be
omitted from the assembled document — the run over the remaining tables is
unchanged — and, with succeeding formatter and import-resolver, the run
still completes successfully. -/
theorem Generate_skipsFailedTable (pre post : List Table) (bad : Table) (e : String)
    (hbad : (generateTableSchemaCode bad).2.2 = some e) :
    (∀ formatSource importsProcess,
      Generate (Except.ok (pre ++ bad :: post)) formatSource importsProcess
        = Generate (Except.ok (pre ++ post)) formatSource importsProcess) ∧
    (∃ doc, Generate (Except.ok (pre ++ bad :: post))
        (fun s => Except.ok s) (fun s => Except.ok s) = Except.ok doc) := by
  have hloop : generateLoop (pre ++ bad :: post) = generateLoop (pre ++ post) := by
    unfold generateLoop
    rw [List.foldl_append, List.foldl_append, List.foldl_cons,
      generateLoopStep_skip _ bad e hbad]
  constructor
  · intro formatSource importsProcess
    simp only [Generate]
    rw [hloop]
  · simp only [Generate]
    rw [hloop]
    exact ⟨_, rfl⟩

theorem Generate_skipsFailedTable_witness :
    Generate (Except.ok [ordersTable, badRecordTable, eventsTable])
        (fun s => Except.ok s) (fun s => Except.ok s)
      = Generate (Except.ok [ordersTable, eventsTable])
        (fun s => Except.ok s) (fun s => Except.ok s) :=
  (Generate_skipsFailedTable [ordersTable] [eventsTable] badRecordTable
    ("bigqueryFieldTypeToGoType: "
      ++ "bigquery.FieldType not supported. bigquery.FieldType=RECORD")
    (by rfl)).1 _ _

/-- C6 counterexample: a per-table metadata fetch failure is not fatal to
the run — with one table whose metadata fetch fails, `Generate` still
returns a document (the bare generated header), contradicting the claim
that every metadata fetch failure propagates out of the entry point with no
document produced. -/
theorem Generate_metadataFetchError_not_fatal :
    Generate (Except.ok [⟨"tbl", Except.error "metadata fetch failed"⟩])
        (fun s => Except.ok s) (fun s => Except.ok s)
      = Except.ok generatedCodeHead := by
  rfl

/-- C6 (amended): a table-enumeration failure, a formatter failure, and an
import-resolution failure are each fatal to the entire generation run — the
wrapped error propagates out of `Generate` and no document is produced; a
per-table metadata fetch failure, by contrast, only causes that table to be
skipped. -/
theorem Generate_externalErrors_fatal (tables : List Table) (e : String)
    (formatSource importsProcess : String → Except String String) :
    (Generate (Except.error e) formatSource importsProcess
      = Except.error ("getAllTables: " ++ e)) ∧
    ((∀ s, formatSource s = Except.error e) →
      Generate (Except.ok tables) formatSource importsProcess
        = Except.error ("format.Source: " ++ e)) ∧
    ((∀ s, formatSource s = Except.ok s) → (∀ s, importsProcess s = Except.error e) →
      Generate (Except.ok tables) formatSource importsProcess
        = Except.error ("imports.Process: " ++ e)) := by
  refine ⟨rfl, ?_, ?_⟩
  · intro hfmt
    simp only [Generate]
    rw [hfmt]
  · intro hfmt himp
    simp only [Generate]
    rw [hfmt]
    simp only [himp]

theorem Generate_externalErrors_fatal_witness :
    Generate (Except.error "boom") (fun s => Except.ok s) (fun s => Except.ok s)
      = Except.error ("getAllTables: " ++ "boom") ∧
    Generate (Except.ok [ordersTable]) (fun _ => Except.error "boom") (fun s => Except.ok s)
      = Except.error ("format.Source: " ++ "boom") ∧
    Generate (Except.ok [ordersTable]) (fun s => Except.ok s) (fun _ => Except.error "boom")
      = Except.error ("imports.Process: " ++ "boom") :=
  ⟨(Generate_externalErrors_fatal [] "boom" (fun s => Except.ok s)
      (fun s => Except.ok s)).1,
   (Generate_externalErrors_fatal [ordersTable] "boom" (fun _ => Except.error "boom")
      (fun s => Except.ok s)).2.1 (fun _ => rfl),
   (Generate_externalErrors_fatal [ordersTable] "boom" (fun s => Except.ok s)
      (fun _ => Except.error "boom")).2.2 (fun _ => rfl) (fun _ => rfl)⟩
